import Mathlib

/-!
Shallow embedding of the event-dispatch and reliable-delivery core of the
`api-l3x-in` repository (`src/lib/utils/aws.py`, `src/lib/stacks/api/api/main.py`),
together with theorems checking the natural-language specification against it.

External collaborators (the AWS network) are modelled as explicit oracles:
each network call consumes the next pre-recorded remote response, and every
function's trace records the calls it made, so that "no further network call"
style properties are directly statable.
-/

namespace ApiL3x

/-- Modelled from the spec: `utils.HandledError` (its defining module
`src/lib/utils/__init__.py` is not in the sources). A Structured Failure
carries a human-readable message and a status code; the status argument is
optional at a raise site, and the spec gives the convention "default 400 if
unspecified". We keep the raise-site argument (`statusArg`) so that
"supplies an explicit status code" is statable. -/
structure HandledError where
  message : String
  statusArg : Option Nat
  deriving Repr, DecidableEq

/-- Effective status code of a Structured Failure: the explicit argument if
the raise site supplied one, else the default 400. -/
def HandledError.status_code (e : HandledError) : Nat :=
  e.statusArg.getD 400

/-- Modelled from the spec: `utils.Response` (module not in the sources).
An envelope holding an optional success payload; `put` stores the payload
and `text` renders it. Payloads are modelled as strings (the deserialized
remote payload text). -/
structure Response where
  payload : Option String
  deriving Repr, DecidableEq

def Response.put (_ : Response) (v : String) : Response := ⟨some v⟩

def Response.text (r : Response) : String := r.payload.getD ""

/-! ## Append-only log writer (`send_event_to_logstream`, aws.py:77-149) -/

/-- Textual rendering of a `botocore` client error (its `str()` form), used
where the Python code interpolates the exception object itself into a
message (aws.py:148). -/
def clientErrorStr (code msg : String) : String :=
  "An error occurred (" ++ code ++ ") when calling the PutLogEvents operation: " ++ msg

/-- One pre-recorded remote answer to a `put_log_events` call. -/
inductive NetResp where
  /-- The append succeeded. -/
  | success
  /-- A `botocore` client error with the given error code and error message. -/
  | clientError (code : String) (msg : String)
  deriving Repr, DecidableEq

/-- The two recognized conflict error codes (aws.py:126-127). -/
def conflictCodes : List String :=
  ["DataAlreadyAcceptedException", "InvalidSequenceTokenException"]

/-- Python `s.strip(" ")`: remove space characters (only U+0020) from both
ends of the string. -/
def stripSpaces (s : String) : String :=
  String.mk (((s.toList.dropWhile (· = ' ')).reverse.dropWhile (· = ' ')).reverse)

/-- Python `s.split(sep)` for a single-character separator: split into the
maximal runs between occurrences of `sep`, keeping empty segments, so the
result is always non-empty. -/
def splitOnChar (sep : Char) : List Char → List (List Char)
  | [] => [[]]
  | c :: rest =>
    let r := splitOnChar sep rest
    if c = sep then [] :: r
    else
      match r with
      | [] => [[c]]
      | g :: gs => (c :: g) :: gs

/-- aws.py:133: `error.response["Error"]["Message"].split(":")[-1].strip(" ")` —
the trailing segment of the error message after the last colon, with
surrounding spaces stripped. -/
def extractToken (m : String) : String :=
  stripSpaces (String.mk ((splitOnChar ':' m.toList).getLastD []))

/-- The log record built once per call (aws.py:94-97): a timestamp in
milliseconds and the serialized message. -/
structure LogEvent where
  timestamp : Nat
  message : String
  deriving Repr, DecidableEq

/-- Python `json.dumps` on a string-to-string mapping, modelled
field-by-field. Only its injectivity-in-the-input matters to the claims;
the rendering follows JSON object syntax. -/
def jsonDumps (kvs : List (String × String)) : String :=
  "\x7b" ++ String.intercalate ", "
    (kvs.map (fun kv => "\x22" ++ kv.1 ++ "\x22: \x22" ++ kv.2 ++ "\x22")) ++ "\x7d"

/-- One network attempt made by the writer: the sequence token the
`put_log_events` call carried (none when the call omitted the
`sequenceToken` argument) and the log record it submitted. -/
structure Attempt where
  token : Option String
  event : LogEvent
  deriving Repr, DecidableEq

/-- Final outcome of one writer call. -/
inductive WriterOutcome where
  /-- Returned the success description string (aws.py:119-120). -/
  | ok (desc : String)
  /-- Raised a Structured Failure. -/
  | failed (e : HandledError)
  /-- The loop exited without returning (unreachable from the initial state;
  Python would return `None`). -/
  | fellThrough
  /-- The oracle had no answer left for a network call the code made. -/
  | starved
  deriving Repr, DecidableEq

/-- The `sequenceToken` argument the call carries, given the current value of
the `sequence_token` variable: Python's `if sequence_token:` treats both
`None` and the empty string as absent (aws.py:101). -/
def tokenForCall (st : Option String) : Option String :=
  match st with
  | none => none
  | some t => if t = "" then none else some t

/-- The retry loop of `send_event_to_logstream` (aws.py:99-149).
`st` is the `sequence_token` variable, `retrials` the remaining budget,
`oracle` the pre-recorded remote responses. Returns the list of network
attempts made and the outcome. -/
def sendLoop (log_group log_stream : String) (event : LogEvent)
    (st : Option String) (retrials : Nat) (oracle : List NetResp) :
    List Attempt × WriterOutcome :=
  if retrials = 0 then ([], .fellThrough)
  else
    match oracle with
    | [] => ([], .starved)
    | r :: rest =>
      let att : Attempt := ⟨tokenForCall st, event⟩
      match r with
      | .success =>
        ([att], .ok ("Successfully delivered event content to CloudWatch LogGroup "
          ++ log_group ++ " Stream " ++ log_stream))
      | .clientError code msg =>
        if code ∈ conflictCodes then
          let tok := extractToken msg
          if retrials - 1 > 0 then
            let next := sendLoop log_group log_stream event (some tok) (retrials - 1) rest
            (att :: next.1, next.2)
          else
            ([att], .failed ⟨"Failed sending event content to CloudWatch Logs after 3 retrials",
              some 500⟩)
        else
          ([att], .failed ⟨"Unexpected response from boto client: " ++ clientErrorStr code msg,
            some 500⟩)

/-- `send_event_to_logstream` (aws.py:77-149). `message` is the mapping to
send, `now_ms` the current wall-clock time in milliseconds, `oracle` the
pre-recorded remote responses. The empty-message check (aws.py:89-92) fires
before the record is built and before any network call; the record is built
exactly once (aws.py:94-97) and the loop starts with no sequence token and
`retrials = 3` (aws.py:85-87). -/
def send_event_to_logstream (log_group log_stream : String)
    (message : List (String × String)) (now_ms : Nat) (oracle : List NetResp) :
    List Attempt × WriterOutcome :=
  if message = [] then
    ([], .failed ⟨"No content to send to Log Stream, aborting", some 500⟩)
  else
    sendLoop log_group log_stream ⟨now_ms, jsonDumps message⟩ none 3 oracle

/-! ## Compute invocation (`invoke_lambda`, aws.py:21-49) -/

/-- The remote compute service's answer to one `invoke` call: the HTTP-like
status code and the (already deserialized) response payload text. -/
structure LambdaResp where
  statusCode : Nat
  payload : String
  deriving Repr, DecidableEq

/-- Textual rendering of a remote invoke response, used in the failure
message `f"lambda response: {lambda_resp}"` (aws.py:46). -/
def lambdaRespStr (r : LambdaResp) : String :=
  "StatusCode " ++ toString r.statusCode ++ ", Payload " ++ r.payload

/-- The three recognized invocation modes (aws.py:23). -/
def invokeTypes : List String := ["DryRun", "RequestResponse", "Event"]

/-- `invoke_lambda` (aws.py:21-49). Returns the list of network calls made
(function name and payload per call) and the outcome. The invoke-type check
fires before the client is even built, so an invalid mode makes no network
call; on synchronous modes the remote payload is deserialized into the
response; a remote status outside [200,300) raises with that same status. -/
def invoke_lambda (name : String) (payload : List (String × String))
    (invoke_type : String) (remote : LambdaResp) :
    List (String × List (String × String)) × Except HandledError Response :=
  if invoke_type ∉ invokeTypes then
    ([], .error ⟨"invalid invoke_type: " ++ invoke_type, some 400⟩)
  else
    let response : Response :=
      if invoke_type ∈ ["DryRun", "RequestResponse"] then Response.put ⟨none⟩ remote.payload
      else ⟨none⟩
    if ¬ (200 ≤ remote.statusCode ∧ remote.statusCode < 300) then
      ([(name, payload)],
       .error ⟨"lambda response: " ++ lambdaRespStr remote, some remote.statusCode⟩)
    else ([(name, payload)], .ok response)

/-! ## Topic publication (`publish_to_sns_topic`, aws.py:52-74) -/

/-- Outcome of a publish: either a returned `Response`, or abrupt process
termination (Python `raise SystemExit`, aws.py:74), which is a distinct
signal and not a Structured Failure. -/
inductive PublishOutcome where
  | returned (r : Response)
  | systemExit (msg : String)
  deriving Repr, DecidableEq

/-- `publish_to_sns_topic` (aws.py:52-74). `remoteMessageId` is the
`MessageId` field of the remote acknowledgment (`none` when the key is
absent, in which case the `KeyError` handler hard-exits the process). -/
def publish_to_sns_topic (sns_topic subject : String)
    (content : List (String × String)) (remoteMessageId : Option String) :
    PublishOutcome :=
  match remoteMessageId with
  | some msgId => .returned (Response.put ⟨none⟩ msgId)
  | none => .systemExit "Missing MessageId in SNS response"

/-! ## Object fetch (`get_object_from_s3_bucket`, aws.py:195-211) -/

/-- Remote object-store answer to one `get_object` call. -/
inductive S3GetRemote where
  | ok (body : List Nat)
  | clientError (code : String) (msg : String)
  deriving Repr, DecidableEq

/-- Result of `get_object_from_s3_bucket`: the object's byte content, a
Structured Failure, or the original client error re-raised unchanged. -/
inductive S3GetResult where
  | body (b : List Nat)
  | handled (e : HandledError)
  | propagated (code : String) (msg : String)
  deriving Repr, DecidableEq

/-- `get_object_from_s3_bucket` (aws.py:195-211): `NoSuchKey` becomes a
Structured Failure with status 404; any other client error is re-raised
unchanged; on success the body is returned unchanged. -/
def get_object_from_s3_bucket (key bucket : String) (remote : S3GetRemote) :
    S3GetResult :=
  match remote with
  | .ok b => .body b
  | .clientError code msg =>
    if code = "NoSuchKey" then
      .handled ⟨"Key " ++ key ++ " not found in bucket " ++ bucket, some 404⟩
    else .propagated code msg

/-! ## Log-stream readers (`read_log_stream` / `read_all_log_streams`,
aws.py:152-176). The remote log store is an oracle mapping stream names of
the requested group to their event lists. -/

/-- `read_log_stream` (aws.py:152-163): return the stream's events as the
remote store reports them. -/
def read_log_stream (streamsOracle : List (String × List String))
    (log_stream : String) : List String :=
  ((streamsOracle.find? (fun kv => kv.1 = log_stream)).map (·.2)).getD []

/-- `read_all_log_streams` (aws.py:166-176): enumerate every stream name the
store describes, then map each name to its events via `read_log_stream`. -/
def read_all_log_streams (streamsOracle : List (String × List String)) :
    List (String × List String) :=
  (streamsOracle.map (·.1)).map
    (fun stream => (stream, read_log_stream streamsOracle stream))

/-! ## DynamoDB report (`pagespeed_report`, main.py:63-87) -/

/-- Modelled from the spec: one item of the `aws.scan_dynamodb_table`
response (the function itself is not in the sources; its response shape is
taken from its use in main.py:65-74). The stored numeric score is modelled
as a rational. -/
structure DynamoItem where
  url : String
  score : ℚ
  ts : String
  deriving Repr, DecidableEq

/-- Modelled from the spec: the `aws.scan_dynamodb_table` response —
a `Count` and a list of `Items` (main.py:65-74). -/
structure DynamoData where
  count : Nat
  items : List DynamoItem
  deriving Repr, DecidableEq

/-- One entry of the report built by `pagespeed_report` (main.py:71-74),
with the `error` flag added by the range check (main.py:79-82). -/
structure ReportItem where
  url : String
  latest_score_value : ℚ
  latest_score_timestamp : String
  errorFlag : Bool
  deriving Repr, DecidableEq

/-- Textual rendering of a report item list, used where the Python code
passes the list itself as the `HandledError` message (main.py:85). -/
def renderReportItems (items : List ReportItem) : String :=
  String.intercalate "; "
    (items.map (fun it => it.url ++ " " ++ toString it.latest_score_value
      ++ " " ++ it.latest_score_timestamp
      ++ (if it.errorFlag then " error" else "")))

/-- The item list built by main.py:71-82: each stored item with the `error`
flag set when its score is outside (0.99, 1]. -/
def processReportItems (items : List DynamoItem) : List ReportItem :=
  items.map (fun it =>
    ReportItem.mk it.url it.score it.ts
      (decide (¬ ((99 : ℚ)/100 < it.score ∧ it.score ≤ 1))))

/-- `pagespeed_report` (main.py:63-87): empty table raises status 500;
any score outside (0.99, 1] marks the item and raises status 400 with the
item list as message; otherwise the items are returned. -/
def pagespeed_report (data : DynamoData) : Except HandledError (List ReportItem) :=
  if data.count = 0 then
    .error ⟨"Unexpected DynamoDB response: empty table", some 500⟩
  else
    if (processReportItems data.items).any (·.errorFlag) then
      .error ⟨renderReportItems (processReportItems data.items), some 400⟩
    else
      .ok (processReportItems data.items)

/-! ## Contact handler (`contact`, main.py:17-60) -/

/-- The body of an inbound event, as seen through `json.loads`: either the
load raised (`TypeError` / `json.JSONDecodeError`, carrying the error text)
or it produced a string-to-string object. -/
inductive JsonBody where
  | malformed (err : String)
  | object (fields : List (String × String))
  deriving Repr, DecidableEq

/-- Lookup of a named field in a JSON object. -/
def lookupField (fields : List (String × String)) (k : String) : Option String :=
  (fields.find? (fun kv => kv.1 = k)).map (·.2)

/-- The 4-line message template of main.py:39-43 (note the trailing
newline of the triple-quoted template). -/
def contactMsg (s n e d : String) : String :=
  "Source: " ++ s ++ "\nName: " ++ n ++ "\nMail: " ++ e ++ "\nDesc: " ++ d ++ "\n"

/-- `contact` (main.py:17-60): parse the body, format the 4-line message
(a missing key raises `KeyError`, re-raised as a Structured Failure with
no explicit status), invoke the notifications lambda with the message under
the `payload` key, and return the response's text. Returns the network
calls made and the outcome. -/
def contact (lambda_notifications : String) (body : JsonBody)
    (remote : LambdaResp) :
    List (String × List (String × String)) × Except HandledError String :=
  match body with
  | .malformed err => ([], .error ⟨"JSON body is malformatted: " ++ err, none⟩)
  | .object fields =>
    match lookupField fields "source" with
    | none => ([], .error ⟨"Missing JSON key: 'source'", none⟩)
    | some s =>
      match lookupField fields "name" with
      | none => ([], .error ⟨"Missing JSON key: 'name'", none⟩)
      | some n =>
        match lookupField fields "email" with
        | none => ([], .error ⟨"Missing JSON key: 'email'", none⟩)
        | some e =>
          match lookupField fields "description" with
          | none => ([], .error ⟨"Missing JSON key: 'description'", none⟩)
          | some d =>
            let msg := contactMsg s n e d
            let payload := [("title", "New /contact submission received"),
                            ("payload", msg)]
            match invoke_lambda lambda_notifications payload "RequestResponse" remote with
            | (calls, .ok r) => (calls, .ok r.text)
            | (calls, .error err) => (calls, .error err)

/-! ## Router (`handler`, main.py:90-106; dispatch modelled from the spec) -/

/-- Success payloads produced by the registered handlers. -/
inductive Value where
  | str (s : String)
  | table (m : List (String × List String))
  | report (items : List ReportItem)
  deriving Repr, DecidableEq

/-- Outcome of invoking one handler: a returned value, a raised Structured
Failure, or an unexpected fault. -/
inductive HandlerOutcome where
  | value (v : Value)
  | handled (e : HandledError)
  | fault (detail : String)
  deriving Repr, DecidableEq

/-- The transport-level response envelope. -/
structure Envelope where
  payload : Option Value
  error : Option String
  status : Nat
  deriving Repr, DecidableEq

/-- An inbound event: verb, path, and body. -/
structure Event where
  verb : String
  path : String
  body : JsonBody
  deriving Repr, DecidableEq

/-- The normalized `"VERB PATH"` registry key. -/
def routeKey (verb path : String) : String := verb ++ " " ++ path

/-- Modelled from the spec: the router (`utils.handlers.ApiGatewayEventHandler`
is not in the sources; algorithm from spec section 4.3): build the route key,
look it up (absent → Structured 404), invoke the handler, and wrap its
outcome — value → 200 with payload, Structured Failure → its message and
status, anything else → generic 500. -/
def dispatch (registry : List (String × (Event → HandlerOutcome)))
    (ev : Event) : Envelope :=
  match (registry.find? (fun kv => kv.1 = routeKey ev.verb ev.path)).map (·.2) with
  | none => ⟨none, some "route not found", 404⟩
  | some h =>
    match h ev with
    | .value v => ⟨some v, none, 200⟩
    | .handled e => ⟨none, some e.message, e.status_code⟩
    | .fault _ => ⟨none, some "internal error", 500⟩

/-- The external world one API invocation talks to: the notifications
lambda's name and remote response, the report log group's streams, and the
pagespeed table contents. -/
structure World where
  lambda_notifications : String
  lambdaRemote : LambdaResp
  logStreams : List (String × List String)
  dynamo : DynamoData

/-- The `pagespeed_report` entry of the router map, as a handler. -/
def pagespeedHandler (w : World) : Event → HandlerOutcome := fun _ =>
  match pagespeed_report w.dynamo with
  | .ok items => .value (.report items)
  | .error e => .handled e

/-- The robots.txt lambda of main.py:97, as a handler. -/
def robotsHandler : Event → HandlerOutcome := fun _ =>
  .value (.str "User-agent: *\nDisallow: /")

/-- The `social_report` entry of the router map, as a handler. -/
def socialHandler (w : World) : Event → HandlerOutcome := fun _ =>
  .value (.table (read_all_log_streams w.logStreams))

/-- The `contact` entry of the router map, as a handler: run `contact` on the
event's body and lift its outcome. -/
def contactHandler (w : World) : Event → HandlerOutcome := fun ev =>
  match contact w.lambda_notifications ev.body w.lambdaRemote with
  | (_, .ok v) => .value (.str v)
  | (_, .error e) => .handled e

/-- The router map of main.py:95-100, with each handler closed over the
world oracles. -/
def apiRouterMap (w : World) : List (String × (Event → HandlerOutcome)) :=
  [("GET /pagespeed_report", pagespeedHandler w),
   ("GET /robots.txt", robotsHandler),
   ("GET /social_report", socialHandler w),
   ("POST /contact", contactHandler w)]

/-! ## Trace lemmas for the writer's retry loop -/

/-- Every attempt the loop makes submits the record it was given. -/
theorem sendLoop_event_eq (g s : String) (e : LogEvent) :
    ∀ (o : List NetResp) (st : Option String) (r : Nat) (a : Attempt),
      a ∈ (sendLoop g s e st r o).1 → a.event = e := by
  intro o
  induction o with
  | nil =>
    intro st r a ha
    rw [sendLoop.eq_def] at ha
    split at ha <;> simp at ha
  | cons hd tl ih =>
    intro st r a ha
    rw [sendLoop.eq_def] at ha
    split at ha
    · simp at ha
    · cases hd with
      | success =>
        simp at ha
        simp [ha]
      | clientError code msg =>
        simp only at ha
        split at ha
        · split at ha
          · simp at ha
            rcases ha with h | h
            · simp [h]
            · exact ih _ _ a h
          · simp at ha
            simp [ha]
        · simp at ha
          simp [ha]

/-- The loop's first attempt (when one exists) carries the token derived
from the incoming `sequence_token` state. -/
theorem sendLoop_head_token (g s : String) (e : LogEvent)
    (st : Option String) (r : Nat) (o : List NetResp) (a : Attempt)
    (ha : (sendLoop g s e st r o).1[0]? = some a) :
    a.token = tokenForCall st := by
  rw [sendLoop.eq_def] at ha
  split at ha
  · simp at ha
  · cases o with
    | nil => simp at ha
    | cons hd tl =>
      cases hd with
      | success =>
        simp at ha
        simp [← ha]
      | clientError code msg =>
        simp only at ha
        split at ha
        · split at ha
          · simp at ha
            simp [← ha]
          · simp at ha
            simp [← ha]
        · simp at ha
          simp [← ha]

/-- After the attempt consuming the i-th remote response fails with a
recognized conflict carrying message `m`, the next attempt (when one
exists) carries the token extracted from `m`. -/
theorem sendLoop_conflict_next (g s : String) (e : LogEvent) :
    ∀ (o : List NetResp) (st : Option String) (r : Nat) (i : Nat) (c m : String)
      (a : Attempt),
      o[i]? = some (.clientError c m) → c ∈ conflictCodes →
      (sendLoop g s e st r o).1[i + 1]? = some a →
      a.token = tokenForCall (some (extractToken m)) := by
  intro o
  induction o with
  | nil =>
    intro st r i c m a ho _ _
    simp at ho
  | cons hd tl ih =>
    intro st r i c m a ho hc ha
    rw [sendLoop.eq_def] at ha
    split at ha
    · simp at ha
    · cases hd with
      | success => simp at ha
      | clientError code msg =>
        simp only at ha
        split at ha
        · split at ha
          · cases i with
            | zero =>
              simp at ho
              simp at ha
              obtain ⟨hoc, hom⟩ := ho
              subst hoc hom
              exact sendLoop_head_token g s e _ _ tl a ha
            | succ j =>
              simp at ho
              simp at ha
              exact ih _ _ j c m a ho hc ha
          · simp at ha
          -- budget exhausted: singleton attempt list, no (i+1)-th element
        · cases i with
          | zero =>
            simp at ho
            obtain ⟨hoc, _⟩ := ho
            subst hoc
            exact absurd hc (by assumption)
          | succ j =>
            simp at ha

/-- Step equation: exhausted budget. -/
theorem sendLoop_eq_zero (g s : String) (e : LogEvent) (st : Option String)
    (o : List NetResp) :
    sendLoop g s e st 0 o = ([], .fellThrough) := by
  rw [sendLoop.eq_def]
  simp

/-- Step equation: oracle exhausted. -/
theorem sendLoop_eq_nil (g s : String) (e : LogEvent) (st : Option String)
    (r : Nat) (hr : r ≠ 0) :
    sendLoop g s e st r [] = ([], .starved) := by
  rw [sendLoop.eq_def]
  simp [hr]

/-- Step equation: the next remote response is a success. -/
theorem sendLoop_eq_success (g s : String) (e : LogEvent) (st : Option String)
    (r : Nat) (tl : List NetResp) (hr : r ≠ 0) :
    sendLoop g s e st r (.success :: tl) =
      ([⟨tokenForCall st, e⟩],
       .ok ("Successfully delivered event content to CloudWatch LogGroup "
         ++ g ++ " Stream " ++ s)) := by
  rw [sendLoop.eq_def]
  simp [hr]

/-- Step equation: a recognized conflict with budget remaining. -/
theorem sendLoop_eq_conflict (g s : String) (e : LogEvent) (st : Option String)
    (r : Nat) (code msg : String) (tl : List NetResp)
    (hcode : code ∈ conflictCodes) (hb : 1 < r) :
    sendLoop g s e st r (.clientError code msg :: tl) =
      (⟨tokenForCall st, e⟩ :: (sendLoop g s e (some (extractToken msg)) (r - 1) tl).1,
       (sendLoop g s e (some (extractToken msg)) (r - 1) tl).2) := by
  have hr : r ≠ 0 := by omega
  have hb' : 0 < r - 1 := by omega
  rw [sendLoop.eq_def]
  simp [hr, hcode, hb']

/-- Step equation: a recognized conflict exhausting the budget. -/
theorem sendLoop_eq_conflict_last (g s : String) (e : LogEvent) (st : Option String)
    (code msg : String) (tl : List NetResp) (hcode : code ∈ conflictCodes) :
    sendLoop g s e st 1 (.clientError code msg :: tl) =
      ([⟨tokenForCall st, e⟩],
       .failed ⟨"Failed sending event content to CloudWatch Logs after 3 retrials",
         some 500⟩) := by
  rw [sendLoop.eq_def]
  simp [hcode]

/-- Step equation: an unrecognized client error. -/
theorem sendLoop_eq_other (g s : String) (e : LogEvent) (st : Option String)
    (r : Nat) (code msg : String) (tl : List NetResp)
    (hr : r ≠ 0) (hcode : code ∉ conflictCodes) :
    sendLoop g s e st r (.clientError code msg :: tl) =
      ([⟨tokenForCall st, e⟩],
       .failed ⟨"Unexpected response from boto client: " ++ clientErrorStr code msg,
         some 500⟩) := by
  rw [sendLoop.eq_def]
  simp [hr, hcode]

/-- An unrecognized client error stops the loop at once: the attempt that
consumed it is the last, and the outcome is the status-500 failure carrying
the original error detail. -/
theorem sendLoop_other_stop (g s : String) (e : LogEvent) :
    ∀ (o : List NetResp) (st : Option String) (r : Nat) (i : Nat) (c d : String),
      o[i]? = some (.clientError c d) → c ∉ conflictCodes →
      i < (sendLoop g s e st r o).1.length →
      (sendLoop g s e st r o).1.length = i + 1 ∧
      (sendLoop g s e st r o).2 =
        .failed ⟨"Unexpected response from boto client: " ++ clientErrorStr c d, some 500⟩ := by
  intro o
  induction o with
  | nil =>
    intro st r i c d ho _ _
    simp at ho
  | cons hd tl ih =>
    intro st r i c d ho hc hlen
    by_cases hr : r = 0
    · rw [hr, sendLoop_eq_zero] at hlen
      simp at hlen
    · cases hd with
      | success =>
        rw [sendLoop_eq_success g s e st r tl hr] at hlen
        cases i with
        | zero =>
          simp at ho
        | succ j =>
          simp at hlen
      | clientError code msg =>
        by_cases hcode : code ∈ conflictCodes
        · by_cases hb : 1 < r
          · rw [sendLoop_eq_conflict g s e st r code msg tl hcode hb] at hlen ⊢
            cases i with
            | zero =>
              simp at ho
              obtain ⟨hoc, _⟩ := ho
              subst hoc
              exact absurd hcode hc
            | succ j =>
              simp at ho hlen ⊢
              exact ih _ _ j c d ho hc hlen
          · have hr1 : r = 1 := by omega
            subst hr1
            rw [sendLoop_eq_conflict_last g s e st code msg tl hcode] at hlen
            cases i with
            | zero =>
              simp at ho
              obtain ⟨hoc, _⟩ := ho
              subst hoc
              exact absurd hcode hc
            | succ j =>
              simp at hlen
        · rw [sendLoop_eq_other g s e st r code msg tl hr hcode] at hlen ⊢
          cases i with
          | zero =>
            simp at ho
            obtain ⟨hoc, hod⟩ := ho
            subst hoc hod
            simp
          | succ j =>
            simp at hlen

/-- Every Structured Failure the loop raises carries the explicit
status 500. -/
theorem sendLoop_failed_status (g s : String) (e : LogEvent) :
    ∀ (o : List NetResp) (st : Option String) (r : Nat) (err : HandledError),
      (sendLoop g s e st r o).2 = .failed err → err.statusArg = some 500 := by
  intro o
  induction o with
  | nil =>
    intro st r err h
    rw [sendLoop.eq_def] at h
    split at h <;> simp at h
  | cons hd tl ih =>
    intro st r err h
    rw [sendLoop.eq_def] at h
    split at h
    · simp at h
    · cases hd with
      | success => simp at h
      | clientError code msg =>
        simp only at h
        split at h
        · split at h
          · exact ih _ _ err h
          · simp at h
            simp [← h]
        · simp at h
          simp [← h]

/-- Three consecutive recognized conflicts exhaust the budget: the loop
makes exactly three network calls (the third with the token extracted from
the second conflict), raises the status-500 "3 retrials" failure, and never
consults the oracle again. -/
theorem sendLoop_three_conflicts (g s : String) (e : LogEvent)
    (c1 c2 c3 m1 m2 m3 : String) (rest : List NetResp)
    (h1 : c1 ∈ conflictCodes) (h2 : c2 ∈ conflictCodes) (h3 : c3 ∈ conflictCodes) :
    sendLoop g s e none 3
        (.clientError c1 m1 :: .clientError c2 m2 :: .clientError c3 m3 :: rest) =
      ([⟨none, e⟩,
        ⟨tokenForCall (some (extractToken m1)), e⟩,
        ⟨tokenForCall (some (extractToken m2)), e⟩],
       .failed ⟨"Failed sending event content to CloudWatch Logs after 3 retrials",
         some 500⟩) := by
  rw [sendLoop.eq_def]
  simp [h1]
  rw [sendLoop.eq_def]
  simp [h2]
  rw [sendLoop.eq_def]
  simp [h3, tokenForCall]

/-- Every Structured Failure `invoke_lambda` raises carries an explicit
status: 400 for an invalid mode, else the remote status passed through. -/
theorem invoke_lambda_error_status (name : String) (payload : List (String × String))
    (t : String) (remote : LambdaResp) (e : HandledError)
    (h : (invoke_lambda name payload t remote).2 = .error e) :
    e.statusArg = some 400 ∨ e.statusArg = some remote.statusCode := by
  by_cases hty : t ∉ invokeTypes
  · simp [invoke_lambda, hty] at h
    left
    simp [← h]
  · by_cases hst : 200 ≤ remote.statusCode ∧ remote.statusCode < 300
    · simp [invoke_lambda, hty, hst.1, hst.2] at h
    · simp [invoke_lambda, hty, hst] at h
      right
      simp [← h]

/-! ## Claims -/

/-- Oracle answering every append attempt with a recognized conflict whose
message embeds the fresh tokens t1, t2, t3, t4. -/
def conflictOracle4 : List NetResp :=
  [.clientError "InvalidSequenceTokenException" "The next expected sequenceToken is: t1",
   .clientError "InvalidSequenceTokenException" "The next expected sequenceToken is: t2",
   .clientError "InvalidSequenceTokenException" "The next expected sequenceToken is: t3",
   .clientError "InvalidSequenceTokenException" "The next expected sequenceToken is: t4"]

/-- C1 (counterexample): with every network attempt answered by a recognized
conflict embedding the tokens t1..t4, the writer makes only 3 total network
calls — not the claimed 4 — with tokens none, "t1", "t2"; no attempt ever
uses "t3", and the status-500 "3 retrials" failure is raised right after the
third conflict. -/
theorem C1_counterexample :
    (send_event_to_logstream "group" "stream" [("k", "v")] 1000 conflictOracle4).1 =
      [⟨none, ⟨1000, jsonDumps [("k", "v")]⟩⟩,
       ⟨some "t1", ⟨1000, jsonDumps [("k", "v")]⟩⟩,
       ⟨some "t2", ⟨1000, jsonDumps [("k", "v")]⟩⟩] ∧
    (send_event_to_logstream "group" "stream" [("k", "v")] 1000 conflictOracle4).1.length ≠ 4 ∧
    (send_event_to_logstream "group" "stream" [("k", "v")] 1000 conflictOracle4).2 =
      .failed ⟨"Failed sending event content to CloudWatch Logs after 3 retrials",
        some 500⟩ := by
  refine ⟨by decide, by decide, by decide⟩

/-- C1 (amended): for every call with a non-empty message, if every network
attempt fails with a recognized conflict error, the writer makes exactly 2
total attempts after the first conflict (3 total network calls; the 3rd
attempt uses the token extracted from the 2nd conflict), and on a 3rd
conflict it fails with a Structured Failure of status 500 whose message
mentions "3 retrials", without making a 4th network attempt. -/
theorem C1_retry_budget (g s : String) (msg : List (String × String)) (now : Nat)
    (c1 c2 c3 m1 m2 m3 : String) (rest : List NetResp)
    (hmsg : msg ≠ [])
    (h1 : c1 ∈ conflictCodes) (h2 : c2 ∈ conflictCodes) (h3 : c3 ∈ conflictCodes) :
    send_event_to_logstream g s msg now
        (.clientError c1 m1 :: .clientError c2 m2 :: .clientError c3 m3 :: rest) =
      ([⟨none, ⟨now, jsonDumps msg⟩⟩,
        ⟨tokenForCall (some (extractToken m1)), ⟨now, jsonDumps msg⟩⟩,
        ⟨tokenForCall (some (extractToken m2)), ⟨now, jsonDumps msg⟩⟩],
       .failed ⟨"Failed sending event content to CloudWatch Logs after 3 retrials",
         some 500⟩) := by
  unfold send_event_to_logstream
  rw [if_neg hmsg]
  exact sendLoop_three_conflicts g s _ c1 c2 c3 m1 m2 m3 rest h1 h2 h3

/-- C1 (witness): the amended budget theorem evaluated on the concrete
all-conflict oracle. -/
theorem C1_retry_budget_witness :
    send_event_to_logstream "g" "s" [("k", "v")] 5 conflictOracle4 =
      ([⟨none, ⟨5, jsonDumps [("k", "v")]⟩⟩,
        ⟨some "t1", ⟨5, jsonDumps [("k", "v")]⟩⟩,
        ⟨some "t2", ⟨5, jsonDumps [("k", "v")]⟩⟩],
       .failed ⟨"Failed sending event content to CloudWatch Logs after 3 retrials",
         some 500⟩) :=
  (C1_retry_budget "g" "s" [("k", "v")] 5
    "InvalidSequenceTokenException" "InvalidSequenceTokenException"
    "InvalidSequenceTokenException"
    "The next expected sequenceToken is: t1"
    "The next expected sequenceToken is: t2"
    "The next expected sequenceToken is: t3"
    [.clientError "InvalidSequenceTokenException" "The next expected sequenceToken is: t4"]
    (by decide) (by decide) (by decide) (by decide)).trans (by decide)

/-- C2: the first append attempt carries no sequence token, and after an
attempt fails with a recognized conflict error whose message field is m,
the next attempt (when one is made) carries exactly the trailing segment of
m after the last colon with surrounding spaces stripped — whenever that
segment is non-empty (an empty extracted token is falsy in Python and
yields a token-less call). -/
theorem C2_token_from_error (g s : String) (msg : List (String × String)) (now : Nat)
    (oracle : List NetResp) (hmsg : msg ≠ []) :
    (∀ a, (send_event_to_logstream g s msg now oracle).1[0]? = some a →
      a.token = none) ∧
    (∀ i c m a, oracle[i]? = some (.clientError c m) → c ∈ conflictCodes →
      (send_event_to_logstream g s msg now oracle).1[i + 1]? = some a →
      extractToken m ≠ "" → a.token = some (extractToken m)) := by
  unfold send_event_to_logstream
  rw [if_neg hmsg]
  constructor
  · intro a ha
    have h := sendLoop_head_token g s _ none 3 oracle a ha
    simpa [tokenForCall] using h
  · intro i c m a ho hc ha hne
    have h := sendLoop_conflict_next g s _ oracle none 3 i c m a ho hc ha
    simpa [tokenForCall, hne] using h

/-- C2 (witness): a first conflict embedding the token "abc123" makes the
second attempt use exactly "abc123". -/
theorem C2_token_from_error_witness :
    (Attempt.mk (some "abc123") ⟨7, jsonDumps [("k", "v")]⟩).token =
      some (extractToken "blah blah: abc123") :=
  (C2_token_from_error "g" "s" [("k", "v")] 7
      [.clientError "DataAlreadyAcceptedException" "blah blah: abc123", .success]
      (by decide)).2 0 "DataAlreadyAcceptedException" "blah blah: abc123"
      ⟨some "abc123", ⟨7, jsonDumps [("k", "v")]⟩⟩
      (by decide) (by decide) (by decide) (by decide)

/-- C3: calling the writer with an empty message mapping fails immediately
with a status-500 Structured Failure and makes no network call. -/
theorem C3_empty_message (g s : String) (now : Nat) (oracle : List NetResp) :
    send_event_to_logstream g s [] now oracle =
      ([], .failed ⟨"No content to send to Log Stream, aborting", some 500⟩) := rfl

/-- C4: an append attempt that fails with a client error outside the two
recognized conflict categories makes the writer fail immediately — that
attempt is the last — with a status-500 Structured Failure whose message
includes the original error detail. -/
theorem C4_unrecognized_error (g s : String) (msg : List (String × String))
    (now : Nat) (oracle : List NetResp) (i : Nat) (c d : String)
    (hmsg : msg ≠ [])
    (ho : oracle[i]? = some (.clientError c d))
    (hc : c ∉ conflictCodes)
    (hi : i < (send_event_to_logstream g s msg now oracle).1.length) :
    (send_event_to_logstream g s msg now oracle).1.length = i + 1 ∧
    (send_event_to_logstream g s msg now oracle).2 =
      .failed ⟨"Unexpected response from boto client: " ++ clientErrorStr c d,
        some 500⟩ := by
  unfold send_event_to_logstream at hi ⊢
  rw [if_neg hmsg] at hi ⊢
  exact sendLoop_other_stop g s _ oracle none 3 i c d ho hc hi

/-- C4 (witness): a throttling error on the first attempt stops the writer
at one network call with the detail-carrying status-500 failure. -/
theorem C4_unrecognized_error_witness :
    (send_event_to_logstream "g" "s" [("k", "v")] 3
        [.clientError "ThrottlingException" "rate exceeded"]).1.length = 0 + 1 ∧
    (send_event_to_logstream "g" "s" [("k", "v")] 3
        [.clientError "ThrottlingException" "rate exceeded"]).2 =
      .failed ⟨"Unexpected response from boto client: "
        ++ clientErrorStr "ThrottlingException" "rate exceeded", some 500⟩ :=
  C4_unrecognized_error "g" "s" [("k", "v")] 3
    [.clientError "ThrottlingException" "rate exceeded"] 0
    "ThrottlingException" "rate exceeded" (by decide) (by decide) (by decide) (by decide)

/-- C5: a publish whose remote acknowledgment lacks the MessageId terminates
the process via the distinct SystemExit signal — returning no value and
raising no Structured Failure — while a present identifier is returned as
the success payload. -/
theorem C5_publish_message_id (topic subject : String)
    (content : List (String × String)) :
    publish_to_sns_topic topic subject content none =
      .systemExit "Missing MessageId in SNS response" ∧
    ∀ msgId, publish_to_sns_topic topic subject content (some msgId) =
      .returned ⟨some msgId⟩ :=
  ⟨rfl, fun _ => rfl⟩

/-- C6: an invocation mode outside the three recognized values fails with
status 400 before any network call; for a recognized mode, a remote status
outside [200,300) fails with that same remote status. -/
theorem C6_invoke_modes (name : String) (payload : List (String × String))
    (invoke_type : String) (remote : LambdaResp) :
    (invoke_type ∉ invokeTypes →
      invoke_lambda name payload invoke_type remote =
        ([], .error ⟨"invalid invoke_type: " ++ invoke_type, some 400⟩)) ∧
    (invoke_type ∈ invokeTypes →
      ¬ (200 ≤ remote.statusCode ∧ remote.statusCode < 300) →
      (invoke_lambda name payload invoke_type remote).1 = [(name, payload)] ∧
      (invoke_lambda name payload invoke_type remote).2 =
        .error ⟨"lambda response: " ++ lambdaRespStr remote,
          some remote.statusCode⟩) := by
  constructor
  · intro h
    simp [invoke_lambda, h]
  · intro h hs
    simp [invoke_lambda, h, hs]

/-- C6 (witness): mode "Bogus" fails with status 400 and no network call;
a recognized mode with remote status 500 fails with status 500. -/
theorem C6_invoke_modes_witness :
    invoke_lambda "f" [] "Bogus" ⟨200, "x"⟩ =
      ([], .error ⟨"invalid invoke_type: Bogus", some 400⟩) ∧
    ((invoke_lambda "f" [] "RequestResponse" ⟨500, "x"⟩).1 = [("f", [])] ∧
     (invoke_lambda "f" [] "RequestResponse" ⟨500, "x"⟩).2 =
       .error ⟨"lambda response: " ++ lambdaRespStr ⟨500, "x"⟩, some 500⟩) :=
  ⟨(C6_invoke_modes "f" [] "Bogus" ⟨200, "x"⟩).1 (by decide),
   (C6_invoke_modes "f" [] "RequestResponse" ⟨500, "x"⟩).2 (by decide) (by decide)⟩

/-- C7: fetching a nonexistent key fails with a status-404 Structured
Failure; any other client error propagates unchanged; a successful fetch
returns the byte content unchanged. -/
theorem C7_get_object (key bucket : String) :
    (∀ m, get_object_from_s3_bucket key bucket (.clientError "NoSuchKey" m) =
      .handled ⟨"Key " ++ key ++ " not found in bucket " ++ bucket, some 404⟩) ∧
    (∀ code m, code ≠ "NoSuchKey" →
      get_object_from_s3_bucket key bucket (.clientError code m) =
        .propagated code m) ∧
    (∀ b, get_object_from_s3_bucket key bucket (.ok b) = .body b) := by
  refine ⟨fun m => ?_, fun code m hcode => ?_, fun b => rfl⟩
  · simp [get_object_from_s3_bucket]
  · simp [get_object_from_s3_bucket, hcode]

/-- C7 (witness): an AccessDenied client error propagates unchanged. -/
theorem C7_get_object_witness :
    get_object_from_s3_bucket "k" "b" (.clientError "AccessDenied" "nope") =
      .propagated "AccessDenied" "nope" :=
  (C7_get_object "k" "b").2.1 "AccessDenied" "nope" (by decide)

/-- C10: the log record is computed once per writer call, before the retry
loop: every network attempt of the call submits the identical record built
from the call's timestamp and serialized message, so retries change only
the sequence token. -/
theorem C10_record_stable (g s : String) (msg : List (String × String))
    (now : Nat) (oracle : List NetResp) (a : Attempt)
    (ha : a ∈ (send_event_to_logstream g s msg now oracle).1) :
    a.event = ⟨now, jsonDumps msg⟩ := by
  unfold send_event_to_logstream at ha
  by_cases hmsg : msg = []
  · simp [hmsg] at ha
  · rw [if_neg hmsg] at ha
    exact sendLoop_event_eq g s _ oracle none 3 a ha

/-- C10 (witness): the retry attempt after a conflict submits the same
record as the first attempt. -/
theorem C10_record_stable_witness :
    (Attempt.mk (some "t1") ⟨9, jsonDumps [("a", "b")]⟩).event =
      ⟨9, jsonDumps [("a", "b")]⟩ :=
  C10_record_stable "g" "s" [("a", "b")] 9
    [.clientError "InvalidSequenceTokenException" "x: t1", .success]
    ⟨some "t1", ⟨9, jsonDumps [("a", "b")]⟩⟩ (by decide)

/-- Every Structured Failure the writer raises carries explicit status 500. -/
theorem send_event_failed_status (g s : String) (msg : List (String × String))
    (now : Nat) (oracle : List NetResp) (e : HandledError)
    (h : (send_event_to_logstream g s msg now oracle).2 = .failed e) :
    e.statusArg = some 500 := by
  unfold send_event_to_logstream at h
  by_cases hmsg : msg = []
  · simp [hmsg] at h
    simp [← h]
  · rw [if_neg hmsg] at h
    exact sendLoop_failed_status g s _ oracle none 3 e h

/-- Every Structured Failure `get_object_from_s3_bucket` raises carries
explicit status 404. -/
theorem get_object_handled_status (key bucket : String) (remote : S3GetRemote)
    (e : HandledError)
    (h : get_object_from_s3_bucket key bucket remote = .handled e) :
    e.statusArg = some 404 := by
  cases remote with
  | ok b => simp [get_object_from_s3_bucket] at h
  | clientError code msg =>
    by_cases hc : code = "NoSuchKey"
    · simp [get_object_from_s3_bucket, hc] at h
      simp [← h]
    · simp [get_object_from_s3_bucket, hc] at h

/-- Every Structured Failure `pagespeed_report` raises carries explicit
status 500 or 400. -/
theorem pagespeed_error_status (data : DynamoData) (e : HandledError)
    (h : pagespeed_report data = .error e) :
    e.statusArg = some 500 ∨ e.statusArg = some 400 := by
  unfold pagespeed_report at h
  by_cases h0 : data.count = 0
  · rw [if_pos h0] at h
    simp at h
    left
    simp [← h]
  · rw [if_neg h0] at h
    by_cases ha : (processReportItems data.items).any (·.errorFlag)
    · rw [if_pos ha] at h
      simp at h
      right
      simp [← h]
    · rw [if_neg ha] at h
      simp at h

/-- The Structured Failures surfaced by `contact` either come from its own
two raise sites — which supply no explicit status and default to 400 — or
are the delegated failures of `invoke_lambda`. -/
theorem contact_error_status (ln : String) (body : JsonBody) (remote : LambdaResp)
    (e : HandledError) (h : (contact ln body remote).2 = .error e) :
    (e.statusArg = none ∧ e.status_code = 400) ∨
    e.statusArg = some 400 ∨ e.statusArg = some remote.statusCode := by
  cases body with
  | malformed err =>
    simp [contact] at h
    left
    simp [← h, HandledError.status_code]
  | object fields =>
    simp only [contact] at h
    cases hs : lookupField fields "source" with
    | none =>
      rw [hs] at h
      simp at h
      left
      simp [← h, HandledError.status_code]
    | some s =>
      rw [hs] at h
      cases hn : lookupField fields "name" with
      | none =>
        rw [hn] at h
        simp at h
        left
        simp [← h, HandledError.status_code]
      | some n =>
        rw [hn] at h
        cases he : lookupField fields "email" with
        | none =>
          rw [he] at h
          simp at h
          left
          simp [← h, HandledError.status_code]
        | some em =>
          rw [he] at h
          cases hd : lookupField fields "description" with
          | none =>
            rw [hd] at h
            simp at h
            left
            simp [← h, HandledError.status_code]
          | some d =>
            rw [hd] at h
            simp only at h
            rcases hinv : invoke_lambda ln
                [("title", "New /contact submission received"),
                 ("payload", contactMsg s n em d)] "RequestResponse" remote
              with ⟨calls, res⟩
            rw [hinv] at h
            cases res with
            | ok r => simp at h
            | error err =>
              simp at h
              right
              have hst := invoke_lambda_error_status ln
                [("title", "New /contact submission received"),
                 ("payload", contactMsg s n em d)] "RequestResponse" remote err
                (by rw [hinv])
              rwa [← h]

/-- C8 (counterexample): the contact handler's malformed-JSON raise site
supplies no explicit status code — the Structured Failure it produces has
no status argument and takes the default 400 — contradicting "every call
site in this system supplies one explicitly". -/
theorem C8_counterexample :
    (contact "notif" (.malformed "boom") ⟨200, "p"⟩).2 =
      .error ⟨"JSON body is malformatted: boom", none⟩ ∧
    (HandledError.mk "JSON body is malformatted: boom" none).statusArg = none ∧
    (HandledError.mk "JSON body is malformatted: boom" none).status_code = 400 :=
  ⟨rfl, rfl, rfl⟩

/-- C8 (amended): every Structured Failure raised by the aws.py helpers or
by `pagespeed_report` supplies an explicit status code in {400, 404, 500}
or the remote status passed through; the two raise sites of the `contact`
handler supply no explicit status and rely on the default 400. -/
theorem C8_status_codes :
    (∀ name payload t remote e,
      (invoke_lambda name payload t remote).2 = .error e →
      e.statusArg = some 400 ∨ e.statusArg = some remote.statusCode) ∧
    (∀ g s msg now oracle e,
      (send_event_to_logstream g s msg now oracle).2 = .failed e →
      e.statusArg = some 500) ∧
    (∀ key bucket remote e,
      get_object_from_s3_bucket key bucket remote = .handled e →
      e.statusArg = some 404) ∧
    (∀ data e, pagespeed_report data = .error e →
      e.statusArg = some 500 ∨ e.statusArg = some 400) ∧
    (∀ ln body remote e, (contact ln body remote).2 = .error e →
      (e.statusArg = none ∧ e.status_code = 400) ∨
      e.statusArg = some 400 ∨ e.statusArg = some remote.statusCode) :=
  ⟨invoke_lambda_error_status, send_event_failed_status, get_object_handled_status,
   pagespeed_error_status, contact_error_status⟩

/-- C8 (witness): the amended theorem evaluated at the writer's
empty-message failure. -/
theorem C8_status_codes_witness :
    (HandledError.mk "No content to send to Log Stream, aborting" (some 500)).statusArg
      = some 500 :=
  C8_status_codes.2.1 "g" "s" [] 0 []
    ⟨"No content to send to Log Stream, aborting", some 500⟩ rfl

/-- C9: an event with verb POST and path /contact whose body holds the keys
source, name, email, description makes the contact handler format the
4-line "Source/Name/Mail/Desc" message, invoke the notifications lambda
with it under the "payload" key, and — through the (spec-modelled) router —
return the remote response's text verbatim as the success payload with
status 200. -/
theorem C9_contact_flow (w : World) (fields : List (String × String))
    (s n e d : String)
    (hs : lookupField fields "source" = some s)
    (hn : lookupField fields "name" = some n)
    (he : lookupField fields "email" = some e)
    (hd : lookupField fields "description" = some d)
    (hlo : 200 ≤ w.lambdaRemote.statusCode) (hhi : w.lambdaRemote.statusCode < 300) :
    contact w.lambda_notifications (.object fields) w.lambdaRemote =
      ([(w.lambda_notifications,
         [("title", "New /contact submission received"),
          ("payload", contactMsg s n e d)])],
       .ok w.lambdaRemote.payload) ∧
    dispatch (apiRouterMap w) ⟨"POST", "/contact", .object fields⟩ =
      ⟨some (.str w.lambdaRemote.payload), none, 200⟩ := by
  have hinv : invoke_lambda w.lambda_notifications
      [("title", "New /contact submission received"),
       ("payload", contactMsg s n e d)] "RequestResponse" w.lambdaRemote =
      ([(w.lambda_notifications,
         [("title", "New /contact submission received"),
          ("payload", contactMsg s n e d)])],
       .ok ⟨some w.lambdaRemote.payload⟩) := by
    unfold invoke_lambda
    simp [show ¬ ("RequestResponse" ∉ invokeTypes) from by decide,
          show "RequestResponse" ∈ ["DryRun", "RequestResponse"] from by decide,
          hlo, hhi, Response.put]
  have hcontact : contact w.lambda_notifications (.object fields) w.lambdaRemote =
      ([(w.lambda_notifications,
         [("title", "New /contact submission received"),
          ("payload", contactMsg s n e d)])],
       .ok w.lambdaRemote.payload) := by
    unfold contact
    simp only [hs, hn, he, hd]
    rw [hinv]
    simp [Response.text]
  refine ⟨hcontact, ?_⟩
  have hdisp : dispatch (apiRouterMap w) ⟨"POST", "/contact", .object fields⟩ =
      match contactHandler w ⟨"POST", "/contact", .object fields⟩ with
      | .value v => ⟨some v, none, 200⟩
      | .handled e => ⟨none, some e.message, e.status_code⟩
      | .fault _ => ⟨none, some "internal error", 500⟩ := rfl
  rw [hdisp]
  simp [contactHandler, hcontact]

/-- C9 (witness): the end-to-end scenario on concrete data: the POST
/contact event with body keys source=web, name=A, email=a@x.com,
description=hi, and a remote returning status 200 with text "OK". -/
theorem C9_contact_flow_witness :
    contact "notif"
        (.object [("source", "web"), ("name", "A"), ("email", "a@x.com"),
          ("description", "hi")]) ⟨200, "OK"⟩ =
      ([("notif",
         [("title", "New /contact submission received"),
          ("payload", contactMsg "web" "A" "a@x.com" "hi")])],
       .ok "OK") ∧
    dispatch (apiRouterMap ⟨"notif", ⟨200, "OK"⟩, [], ⟨1, []⟩⟩)
        ⟨"POST", "/contact",
         .object [("source", "web"), ("name", "A"), ("email", "a@x.com"),
           ("description", "hi")]⟩ =
      ⟨some (.str "OK"), none, 200⟩ :=
  C9_contact_flow ⟨"notif", ⟨200, "OK"⟩, [], ⟨1, []⟩⟩
    [("source", "web"), ("name", "A"), ("email", "a@x.com"), ("description", "hi")]
    "web" "A" "a@x.com" "hi"
    (by decide) (by decide) (by decide) (by decide) (by decide) (by decide)

end ApiL3x
